import Mathlib

/-!
Verification development for the ethio-date-convert-bot core:
a shallow embedding of `src/date_conversion.py` and `src/age_calculation.py`
(plus the conversion calls made by `src/bot.py`), with theorems settling the
frozen claims about validation, conversion, weekday derivation, formatting
and age computation.

The repository's own code is embedded directly.  The calendar conversion
itself lives in two third-party libraries (`ethiopian_date`, `hijridate`)
whose sources are not part of the repository; those are modelled from the
spec (fixed-epoch offset arithmetic for the Ethiopian solar calendar and a
deterministic tabular month-length algorithm for the Hijri lunar calendar,
both routed through a canonical day number for the proleptic Gregorian
pivot).  Python's `datetime.date` is embedded with its documented
semantics: a (year, month, day) record whose constructor accepts exactly
years 1..9999 and calendrically real month/day values, with lexicographic
comparison and `weekday()` returning 0 for Monday.
-/

/-- Embeds Python's `datetime.date` value: a plain (year, month, day)
record.  The constructor-level checks of `datetime.date` are captured
separately by `pyDateLegal`. -/
structure PyDate where
  year : Nat
  month : Nat
  day : Nat
deriving DecidableEq, Repr

/-- Embeds Python `date1 < date2`: lexicographic on (year, month, day). -/
def pyDateLt (a b : PyDate) : Bool :=
  a.year < b.year ||
    (a.year == b.year &&
      (a.month < b.month || (a.month == b.month && a.day < b.day)))

/-- Embeds Python `date1 <= date2`: lexicographic on (year, month, day). -/
def pyDateLe (a b : PyDate) : Bool :=
  a.year < b.year ||
    (a.year == b.year &&
      (a.month < b.month || (a.month == b.month && a.day ≤ b.day)))

/-- Embeds the Python tuple comparison `(a, b) < (c, d)` on naturals, as
used by `calculate_age` in `src/age_calculation.py` line 14. -/
def pyPairLt (a b c d : Nat) : Bool :=
  a < c || (a == c && b < d)

/-! ## Proleptic Gregorian calendar arithmetic -/

/-- Standard Gregorian leap-year rule (divisible by 4, not by 100 unless by
400), on integer years. -/
def gregLeap (y : Int) : Prop :=
  y % 4 = 0 ∧ (y % 100 ≠ 0 ∨ y % 400 = 0)

instance (y : Int) : Decidable (gregLeap y) := by
  unfold gregLeap; infer_instance

/-- Length of a Gregorian month (1-based month). -/
def gregMonthLen (y m : Int) : Int :=
  if m = 2 then (if gregLeap y then 29 else 28)
  else if m = 4 ∨ m = 6 ∨ m = 9 ∨ m = 11 then 30
  else 31

/-- Modelled from the spec: "For Gregorian: legal iff it forms a real
proleptic-Gregorian date (month 1-12, day within that month's length,
accounting for leap years)".  No bound on the year: the proleptic
Gregorian calendar extends over all integer years. -/
def prolepticGregLegal (y m d : Int) : Bool :=
  1 ≤ m && m ≤ 12 && 1 ≤ d && d ≤ gregMonthLen y m

/-- Embeds the validity check of Python's `datetime.date(y, m, d)`
constructor: it raises `ValueError` unless `MINYEAR = 1 <= y <= MAXYEAR =
9999`, `1 <= m <= 12` and `1 <= d <=` the month's length. -/
def pyDateLegal (y m d : Int) : Bool :=
  1 ≤ y && y ≤ 9999 && prolepticGregLegal y m d

/-- The Gregorian leap-year rule on natural years (as used by the
day-number arithmetic). -/
def gregLeapN (y : Nat) : Prop :=
  y % 4 = 0 ∧ (y % 100 ≠ 0 ∨ y % 400 = 0)

instance (y : Nat) : Decidable (gregLeapN y) := by
  unfold gregLeapN; infer_instance

/-- Length of a Gregorian month on natural inputs. -/
def gregMonthLenN (y m : Nat) : Nat :=
  if m = 2 then (if gregLeapN y then 29 else 28)
  else if m = 4 ∨ m = 6 ∨ m = 9 ∨ m = 11 then 30
  else 31

/-- Upper bound of `gregMonthLenN` over all years (February capped at its
leap-year length); used to bound day-of-year arithmetic. -/
def mLen (m : Nat) : Nat :=
  if m = 2 then 29 else if m = 4 ∨ m = 6 ∨ m = 9 ∨ m = 11 then 30 else 31

/-! ### Gregorian date <-> day number

The canonical pivot day number: days elapsed since proleptic Gregorian
0000-03-01, via the standard era-based civil-calendar algorithm
(146097-day 400-year eras, March-first shifted years so each leap day is
the last day of its shifted year, and the short century landing last in
each era). -/

/-- Day of the (March-shifted) year for a calendar month/day: month `m`,
day `d` sit `(153 * ((m + 9) % 12) + 2) / 5 + (d - 1)` days after
March 1. -/
def doyOf (m d : Nat) : Nat := (153 * ((m + 9) % 12) + 2) / 5 + (d - 1)

/-- Day of the 400-year era for a year-of-era and day-of-year. -/
def doeOf (yoe doy : Nat) : Nat := yoe * 365 + yoe / 4 - yoe / 100 + doy

/-- Day number of a proleptic Gregorian date (days since 0000-03-01),
defined for `y >= 1`. -/
def gregToRd (y m d : Nat) : Nat :=
  (if m ≤ 2 then y - 1 else y) / 400 * 146097 +
    doeOf ((if m ≤ 2 then y - 1 else y) % 400) (doyOf m d)

/-- Recovers (year-of-era, day-of-year) from a day-of-era by peeling the
century (36524 days, short century last), the 4-year cycle (1461 days)
and the year (365 days, leap year last). -/
def rdYoeDoy (doe : Nat) : Nat × Nat :=
  let c := min (doe / 36524) 3
  let doc := doe - 36524 * c
  let q := doc / 1461
  let dic := doc - 1461 * q
  let yic := min (dic / 365) 3
  (100 * c + 4 * q + yic, dic - 365 * yic)

/-- Recovers (month, day) from a day of the March-shifted year. -/
def rdMD (doy : Nat) : Nat × Nat :=
  let mp := (5 * doy + 2) / 153
  (if mp < 10 then mp + 3 else mp - 9, doy - (153 * mp + 2) / 5 + 1)

/-- Proleptic Gregorian date of a day number (inverse of `gregToRd`). -/
def rdToGreg (n : Nat) : PyDate :=
  let yd := rdYoeDoy (n % 146097)
  let md := rdMD yd.2
  ⟨n / 146097 * 400 + yd.1 + (if md.1 ≤ 2 then 1 else 0), md.1, md.2⟩

/-- Embeds Python `date.weekday()` (Monday = 0, ..., Sunday = 6).
Day number 0 (0000-03-01) is a Wednesday, hence the offset 2. -/
def pyDateWeekday (p : PyDate) : Nat :=
  (gregToRd p.year p.month p.day + 2) % 7

/-! ## Ethiopian calendar arithmetic

Modelled from the spec: the `ethiopian_date` library
(`EthiopianDateConverter`) is not part of the repository; per the spec it
is "fixed-epoch offset arithmetic": 12 months of 30 days plus a 5- or
6-day intercalary 13th month, one leap day every 4 years (years = 3 mod 4,
aligning with the Gregorian leap year immediately preceding the Ethiopian
New Year), anchored so that Ethiopian 2017-01-01 = Gregorian 2024-09-11
(the spec's conversion example). -/

/-- Ethiopian leap year: one extra intercalary day when `y % 4 = 3`. -/
def ethLeap (y : Int) : Prop := y % 4 = 3

instance (y : Int) : Decidable (ethLeap y) := by
  unfold ethLeap; infer_instance

/-- Length of an Ethiopian month: 30 for months 1-12, 5 or 6 for the
intercalary 13th month. -/
def ethMonthLen (y m : Int) : Int :=
  if m = 13 then (if ethLeap y then 6 else 5) else 30

/-- Day number of an Ethiopian date.  2736 is the day number of the
proleptic Ethiopian date 0-01-01; a 4-year cycle spans 1461 days with the
leap year last. -/
def ethToRd (y m d : Nat) : Nat :=
  2736 + 365 * y + y / 4 + 30 * (m - 1) + (d - 1)

/-- Ethiopian date of a day number (inverse of `ethToRd`). -/
def rdToEth (n : Nat) : Nat × Nat × Nat :=
  let r := n - 2736
  let c := r / 1461
  let rr := r % 1461
  let j := min (rr / 365) 3
  let doy := rr - 365 * j
  (4 * c + j, doy / 30 + 1, doy % 30 + 1)

/-! ## Hijri calendar arithmetic

Modelled from the spec: the `hijridate` library (`Hijri`, `Gregorian`) is
not part of the repository; per the spec it is "lunar calendar conversion
via a tabular or astronomically-approximated month-length algorithm" whose
round trip is idempotent.  We use the standard deterministic tabular
Islamic calendar: months alternate 30/29 days, month 12 has 30 days in the
11 leap years of each 30-year (10631-day) cycle, with the civil epoch
1 Muharram 1 AH = proleptic Gregorian 0622-07-19 (a Friday).  (The real
library ships the Umm al-Qura tables, which confine years to 1343-1500 AH
and may differ by a day; the spec does not pin those values.) -/

/-- Tabular Hijri leap year (11 per 30-year cycle). -/
def hijriLeap (y : Int) : Prop := (11 * y + 14) % 30 < 11

instance (y : Int) : Decidable (hijriLeap y) := by
  unfold hijriLeap; infer_instance

/-- Length of a tabular Hijri month: odd months 30 days, even months 29,
except month 12 has 30 in a leap year. -/
def hijriMonthLen (y m : Int) : Int :=
  if m = 12 then (if hijriLeap y then 30 else 29)
  else if m % 2 = 1 then 30 else 29

/-- Day number of a tabular Hijri date.  227320 is the day number of
1 Muharram 1 AH; `(11 * (y - 1) + 14) / 30` counts leap years before year
`y`, and `29 * (m - 1) + m / 2` counts days before month `m`. -/
def hijriToRd (y m d : Nat) : Nat :=
  227320 + 354 * (y - 1) + (11 * (y - 1) + 14) / 30 + 29 * (m - 1) + m / 2 + (d - 1)

/-- Tabular Hijri date of a day number (inverse of `hijriToRd`). -/
def rdToHijri (n : Nat) : Nat × Nat × Nat :=
  let r := n - 227320
  let c := r / 10631
  let rr := r % 10631
  let t := (30 * rr + 29) / 10631
  let j := if rr < 354 * t + (11 * t + 14) / 30 then t - 1 else t
  let doy := rr - (354 * j + (11 * j + 14) / 30)
  let m := min ((2 * doy) / 59 + 1) 12
  let d := doy - (29 * (m - 1) + m / 2) + 1
  (30 * c + j + 1, m, d)

/-! ## Converter entry points as called by the source -/

/-- Embeds `EthiopianDateConverter.to_ethiopian(y, m, d)` (modelled from
the spec, see above). -/
def greg_to_ethiopian (y m d : Nat) : Nat × Nat × Nat :=
  rdToEth (gregToRd y m d)

/-- Embeds `EthiopianDateConverter.to_gregorian(y, m, d)` (modelled from
the spec, see above). -/
def eth_to_gregorian (y m d : Nat) : PyDate :=
  rdToGreg (ethToRd y m d)

/-- Embeds `Gregorian(y, m, d).to_hijri()` (modelled from the spec, see
above). -/
def greg_to_hijri (y m d : Nat) : Nat × Nat × Nat :=
  rdToHijri (gregToRd y m d)

/-- Embeds `Hijri(y, m, d).to_gregorian()` (modelled from the spec, see
above). -/
def hijri_to_gregorian (y m d : Nat) : PyDate :=
  rdToGreg (hijriToRd y m d)

/-- Modelled from the spec: an Ethiopian triple is "legal iff convertible
to a Gregorian date without the underlying conversion raising a
range/format error; month range 1-13, day range 1-30 for months 1-12,
1-5 or 1-6 for month 13 depending on Ethiopian leap year".  The year
bounds keep the Gregorian equivalent constructible as a
`datetime.date`. -/
def ethLegal (y m d : Int) : Bool :=
  1 ≤ y && 1 ≤ m && m ≤ 13 && 1 ≤ d && d ≤ ethMonthLen y m &&
    ((eth_to_gregorian y.toNat m.toNat d.toNat).year ≤ 9999)

/-- Modelled from the spec: a Hijri triple is "legal iff constructible
under the Islamic calendar's lunar month-length table (29 or 30 days ...);
month range 1-12".  The year bounds keep the Gregorian equivalent
constructible as a `datetime.date`. -/
def hijriLegal (y m d : Int) : Bool :=
  1 ≤ y && 1 ≤ m && m ≤ 12 && 1 ≤ d && d ≤ hijriMonthLen y m &&
    ((hijri_to_gregorian y.toNat m.toNat d.toNat).year ≤ 9999)

/-! ## Name tables and formatters (src/date_conversion.py) -/

/-- `ETH_WEEKDAYS` from src/date_conversion.py line 6 (Sunday first). -/
def ETH_WEEKDAYS : List String :=
  ["እሑድ", "ሰኞ", "ማክሰኞ", "ረቡዕ", "ሐሙስ", "ዓርብ", "ቅዳሜ"]

/-- `HIJRI_WEEKDAYS` from src/date_conversion.py line 7 (Sunday first). -/
def HIJRI_WEEKDAYS : List String :=
  ["al-Ahad", "al-Ithnayn", "ath-Thulatha", "al-Arbi\x27a", "al-Khamis",
    "al-Jumu\x27ah", "as-Sabt"]

/-- `GREG_MONTHS` from src/date_conversion.py lines 9-12. -/
def GREG_MONTHS : List String :=
  ["January", "February", "March", "April", "May", "June",
    "July", "August", "September", "October", "November", "December"]

/-- `ETH_MONTHS` from src/date_conversion.py lines 14-19: (native name,
transliteration) pairs, 13 entries. -/
def ETH_MONTHS : List (String × String) :=
  [("መስከረም", "Meskerem"), ("ጥቅምት", "Tikimt"), ("ህዳር", "Hidar"),
    ("ታህሳስ", "Tahsas"), ("ጥር", "Tir"), ("የካቲት", "Yekatit"),
    ("መጋቢት", "Megabit"), ("ሚያዝያ", "Miyazya"), ("ግንቦት", "Ginbot"),
    ("ሰኔ", "Sene"), ("ሐምሌ", "Hamle"), ("ነሐሴ", "Nehase"),
    ("ጳጉሜን", "Pagumen")]

/-- `HIJRI_MONTHS` from src/date_conversion.py lines 21-25. -/
def HIJRI_MONTHS : List String :=
  ["Muharram", "Safar", "Rabiʿ al-Awwal", "Rabiʿ al-Thani",
    "Jumada al-Awwal", "Jumada al-Thani", "Rajab", "Shaʿban",
    "Ramadan", "Shawwal", "Dhu al-Qaʿdah", "Dhu al-Hijjah"]

/-- English weekday names Monday first, as produced by
`date.strftime("%A")` in the C locale (indexed by `date.weekday()`). -/
def ENG_WEEKDAYS : List String :=
  ["Monday", "Tuesday", "Wednesday", "Thursday", "Friday", "Saturday",
    "Sunday"]

/-- Embeds `get_ethiopian_weekday` (src/date_conversion.py lines 27-29):
convert to the Gregorian pivot, rebase `weekday()` from Monday-zero to
Sunday-zero with `(w + 1) % 7`, and look up the Amharic name. -/
def get_ethiopian_weekday (eth_year eth_month eth_day : Nat) : String :=
  let g_date := eth_to_gregorian eth_year eth_month eth_day
  ETH_WEEKDAYS.getD ((pyDateWeekday g_date + 1) % 7) ""

/-- Embeds `get_hijri_weekday` (src/date_conversion.py lines 31-34). -/
def get_hijri_weekday (hy hm hd : Nat) : String :=
  let g_date := hijri_to_gregorian hy hm hd
  HIJRI_WEEKDAYS.getD ((pyDateWeekday g_date + 1) % 7) ""

/-- Embeds `format_gregorian_date` (src/date_conversion.py lines 36-37):
the f-string `"%A, {day} {GREG_MONTHS[month-1]} {year}"` rendered as plain
concatenation. -/
def format_gregorian_date (date : PyDate) : String :=
  ENG_WEEKDAYS.getD (pyDateWeekday date) "" ++ ", " ++ toString date.day ++
    " " ++ GREG_MONTHS.getD (date.month - 1) "" ++ " " ++ toString date.year

/-- Embeds `format_ethiopian_date` (src/date_conversion.py lines 39-42):
weekday, day, native month name, transliteration in parentheses, year. -/
def format_ethiopian_date (eth_year eth_month eth_day : Nat) : String :=
  get_ethiopian_weekday eth_year eth_month eth_day ++ ", " ++
    toString eth_day ++ " " ++ (ETH_MONTHS.getD (eth_month - 1) ("", "")).1 ++
    " (" ++ (ETH_MONTHS.getD (eth_month - 1) ("", "")).2 ++ ") " ++
    toString eth_year

/-- Embeds `format_hijri_date` (src/date_conversion.py lines 44-46):
weekday, day, month name, year, literal suffix `AH`. -/
def format_hijri_date (hy hm hd : Nat) : String :=
  get_hijri_weekday hy hm hd ++ ", " ++ toString hd ++ " " ++
    HIJRI_MONTHS.getD (hm - 1) "" ++ " " ++ toString hy ++ " AH"

/-- Modelled from the spec: the fixed-order display template
`"<Weekday>, <day> <Month>[ (translit)] <year>[ suffix]"` of section 4.3,
against which the three source formatters are compared. -/
def composeDateString (weekday : String) (day : Nat) (monthName : String)
    (year : Nat) (suffix : String) : String :=
  weekday ++ ", " ++ toString day ++ " " ++ monthName ++ " " ++
    toString year ++ suffix

/-! ## Validators and age computation -/

/-- Embeds `validate_date` (src/date_conversion.py lines 48-60).  The
`try` body checks `datetime.date(y, m, d)` for `"greg"`, the Ethiopian
conversion for `"eth"` and the `Hijri` constructor for `"hijri"`; any
other tag falls through every `elif` and reaches `return True, None`
unchecked.  Exception messages of the underlying libraries are abstracted
to fixed strings. -/
def validate_date (cal_type : String) (y m d : Int) : Bool × Option String :=
  if cal_type = "greg" then
    if pyDateLegal y m d then (true, none)
    else (false, some "Invalid date: gregorian date out of range")
  else if cal_type = "eth" then
    if ethLegal y m d then (true, none)
    else (false, some "Invalid date: ethiopian date out of range")
  else if cal_type = "hijri" then
    if hijriLegal y m d then (true, none)
    else (false, some "Invalid date: hijri date out of range")
  else (true, none)

/-- Embeds `calculate_age` (src/age_calculation.py lines 9-16).  The
`today` argument embeds the reference date: Python defaults it to
`datetime.date.today()`, the ambient system clock, which the shallow
embedding passes explicitly. -/
def calculate_age (birth_date today : PyDate) : Int :=
  let years : Int := (today.year : Int) - (birth_date.year : Int)
  if pyPairLt today.month today.day birth_date.month birth_date.day
  then years - 1 else years

/-- Embeds `validate_birth_date` (src/age_calculation.py lines 18-39).
`today` embeds the value of `datetime.date.today()` read inside the
function (the source takes no such parameter; the shallow embedding makes
the clock explicit). -/
def validate_birth_date (calendar : String) (y m d : Int) (today : PyDate) :
    Bool × Option String :=
  if calendar = "greg" then
    if pyDateLegal y m d then
      if pyDateLt today ⟨y.toNat, m.toNat, d.toNat⟩ then
        (false, some "Birth date cannot be in the future")
      else (true, none)
    else (false, some "Invalid date: gregorian date out of range")
  else if calendar = "eth" then
    if ethLegal y m d then
      if pyDateLt today (eth_to_gregorian y.toNat m.toNat d.toNat) then
        (false, some "Birth date cannot be in the future")
      else (true, none)
    else (false, some "Invalid date: ethiopian date out of range")
  else if calendar = "hijri" then
    if hijriLegal y m d then
      if pyDateLt today (hijri_to_gregorian y.toNat m.toNat d.toNat) then
        (false, some "Birth date cannot be in the future")
      else (true, none)
    else (false, some "Invalid date: hijri date out of range")
  else (false, some "Unsupported calendar type")

/-- Embeds `parse_birth_date` (src/age_calculation.py lines 41-54):
validate, raise `ValueError(error)` when invalid (`Except.error`), then
convert per calendar; an unknown-but-valid tag would fall off the end of
the Python function returning `None` (`Except.ok none`). -/
def parse_birth_date (calendar : String) (y m d : Int) (today : PyDate) :
    Except String (Option PyDate) :=
  let v := validate_birth_date calendar y m d today
  if v.1 then
    if calendar = "greg" then Except.ok (some ⟨y.toNat, m.toNat, d.toNat⟩)
    else if calendar = "eth" then
      Except.ok (some (eth_to_gregorian y.toNat m.toNat d.toNat))
    else if calendar = "hijri" then
      Except.ok (some (hijri_to_gregorian y.toNat m.toNat d.toNat))
    else Except.ok none
  else Except.error (v.2.getD "None")

/-- The Gregorian `datetime.date` equivalent of a calendar triple, as
computed by the branches of `parse_birth_date`; `none` for an unknown
calendar tag. -/
def gregEquivalent (calendar : String) (y m d : Int) : Option PyDate :=
  if calendar = "greg" then some ⟨y.toNat, m.toNat, d.toNat⟩
  else if calendar = "eth" then some (eth_to_gregorian y.toNat m.toNat d.toNat)
  else if calendar = "hijri" then
    some (hijri_to_gregorian y.toNat m.toNat d.toNat)
  else none

/-- Calendrical legality of a birth-date triple, per calendar tag (false
for unknown tags). -/
def birthLegal (calendar : String) (y m d : Int) : Bool :=
  if calendar = "greg" then pyDateLegal y m d
  else if calendar = "eth" then ethLegal y m d
  else if calendar = "hijri" then hijriLegal y m d
  else false

/-! ## Day-number arithmetic lemmas -/

/-- The Ethiopian day-number maps are mutually inverse on day numbers at
or after the Ethiopian epoch. -/
theorem ethToRd_rdToEth (n : Nat) (h : 2736 ≤ n) :
    ethToRd (rdToEth n).1 (rdToEth n).2.1 (rdToEth n).2.2 = n := by
  simp only [rdToEth, ethToRd, Nat.min_def]
  split <;> omega

/-- The tabular Hijri day-number maps are mutually inverse on day numbers
at or after the Hijri epoch. -/
theorem hijriToRd_rdToHijri (n : Nat) (h : 227320 ≤ n) :
    hijriToRd (rdToHijri n).1 (rdToHijri n).2.1 (rdToHijri n).2.2 = n := by
  simp only [rdToHijri, hijriToRd, Nat.min_def]
  split <;> split <;> omega

/-- A legal month/day pair sits at most 365 days after March 1. -/
theorem doyOf_le (m d : Nat) (hm1 : 1 ≤ m) (hm2 : m ≤ 12) (hd1 : 1 ≤ d)
    (hd2 : d ≤ mLen m) : doyOf m d ≤ 365 := by
  interval_cases m <;> simp_all [doyOf, mLen] <;> omega

/-- Day 365 of a shifted year is exactly the leap day February 29. -/
theorem doyOf_eq_365 (m d : Nat) (hm1 : 1 ≤ m) (hm2 : m ≤ 12) (hd1 : 1 ≤ d)
    (hd2 : d ≤ mLen m) (h : doyOf m d = 365) : m = 2 ∧ d = 29 := by
  interval_cases m <;> simp_all [doyOf, mLen] <;> omega

/-- Month and day are recovered from the day of the shifted year. -/
theorem rdMD_doyOf (m d : Nat) (hm1 : 1 ≤ m) (hm2 : m ≤ 12) (hd1 : 1 ≤ d)
    (hd2 : d ≤ mLen m) : rdMD (doyOf m d) = (m, d) := by
  interval_cases m <;>
    simp_all [rdMD, doyOf, mLen, Prod.ext_iff] <;>
    (constructor <;> (try split_ifs) <;> omega)

/-- Century, 4-year cycle and year-in-cycle are recovered from a
day-of-era presented in decomposed form. -/
theorem rdYoeDoy_parts (c q yi doy : Nat) (hc : c ≤ 3) (hq : q ≤ 24)
    (hyi : yi ≤ 3) (hdoy : doy ≤ 365)
    (hv : doy = 365 → yi = 3 ∧ (q ≠ 24 ∨ c = 3)) :
    rdYoeDoy (36524 * c + 1461 * q + 365 * yi + doy) =
      (100 * c + 4 * q + yi, doy) := by
  simp only [rdYoeDoy, Prod.mk.injEq]
  rw [show min ((36524 * c + 1461 * q + 365 * yi + doy) / 36524) 3 = c by
    omega]
  rw [show 36524 * c + 1461 * q + 365 * yi + doy - 36524 * c
        = 1461 * q + 365 * yi + doy by omega]
  rw [show (1461 * q + 365 * yi + doy) / 1461 = q by omega]
  rw [show 1461 * q + 365 * yi + doy - 1461 * q = 365 * yi + doy by omega]
  rw [show min ((365 * yi + doy) / 365) 3 = yi by omega]
  omega

/-- The compact day-of-era formula agrees with its century/cycle/year
decomposition. -/
theorem doeOf_decomp (yoe doy : Nat) (h : yoe ≤ 399) :
    doeOf yoe doy =
      36524 * (yoe / 100) + 1461 * (yoe % 100 / 4) + 365 * (yoe % 4) + doy := by
  simp only [doeOf]; omega

/-- Year-of-era and day-of-year are recovered from the day-of-era, given
that day 365 only occurs in a (shifted) leap year. -/
theorem rdYoeDoy_doeOf (yoe doy : Nat) (h1 : yoe ≤ 399) (h2 : doy ≤ 365)
    (h3 : doy = 365 → yoe % 4 = 3 ∧ (yoe % 100 ≠ 99 ∨ yoe = 399)) :
    rdYoeDoy (doeOf yoe doy) = (yoe, doy) := by
  rw [doeOf_decomp yoe doy h1,
    rdYoeDoy_parts (yoe / 100) (yoe % 100 / 4) (yoe % 4) doy
      (by omega) (by omega) (by omega) h2 (by omega)]
  have hre : 100 * (yoe / 100) + 4 * (yoe % 100 / 4) + yoe % 4 = yoe := by
    omega
  rw [hre]

/-- A day-of-era is below the 400-year era length. -/
theorem doeOf_le (yoe doy : Nat) (h1 : yoe ≤ 399) (h2 : doy ≤ 365) :
    doeOf yoe doy ≤ 146096 := by
  simp only [doeOf]; omega

/-- Era and day-of-era are recovered from a day number. -/
theorem era_split (a b : Nat) (h : b ≤ 146096) :
    (a * 146097 + b) / 146097 = a ∧ (a * 146097 + b) % 146097 = b := by
  omega

/-- The Gregorian day-number maps are mutually inverse on real proleptic
Gregorian dates in the claims' working range. -/
theorem rdToGreg_gregToRd (y m d : Nat) (hy1 : 1900 ≤ y) (hy2 : y ≤ 2100)
    (hm1 : 1 ≤ m) (hm2 : m ≤ 12) (hd1 : 1 ≤ d) (hd2 : d ≤ gregMonthLenN y m) :
    rdToGreg (gregToRd y m d) = ⟨y, m, d⟩ := by
  have hmLen : d ≤ mLen m := by
    simp only [gregMonthLenN, mLen] at *
    split_ifs at * <;> omega
  have hdoy365 : doyOf m d ≤ 365 := doyOf_le m d hm1 hm2 hd1 hmLen
  have hleap : doyOf m d = 365 → gregLeapN y := by
    intro h
    obtain ⟨hm2', hd29⟩ := doyOf_eq_365 m d hm1 hm2 hd1 hmLen h
    subst hm2'
    subst hd29
    by_cases hL : gregLeapN y
    · exact hL
    · exfalso
      have h28 : gregMonthLenN y 2 = 28 := by simp [gregMonthLenN, hL]
      omega
  rcases le_or_lt m 2 with hm3 | hm3
  · simp only [gregToRd, rdToGreg, if_pos hm3]
    have hdoe : doeOf ((y - 1) % 400) (doyOf m d) ≤ 146096 :=
      doeOf_le _ _ (by omega) hdoy365
    rw [(era_split ((y - 1) / 400) (doeOf ((y - 1) % 400) (doyOf m d)) hdoe).1,
      (era_split ((y - 1) / 400) (doeOf ((y - 1) % 400) (doyOf m d)) hdoe).2]
    rw [rdYoeDoy_doeOf ((y - 1) % 400) (doyOf m d) (by omega) hdoy365
      (by intro h; have := hleap h; simp only [gregLeapN] at this; omega)]
    rw [rdMD_doyOf m d hm1 hm2 hd1 hmLen]
    rw [if_pos hm3]
    simp only [PyDate.mk.injEq, and_true, true_and, and_self]
    omega
  · simp only [gregToRd, rdToGreg, if_neg (by omega : ¬ m ≤ 2)]
    have hdoe : doeOf (y % 400) (doyOf m d) ≤ 146096 :=
      doeOf_le _ _ (by omega) hdoy365
    rw [(era_split (y / 400) (doeOf (y % 400) (doyOf m d)) hdoe).1,
      (era_split (y / 400) (doeOf (y % 400) (doyOf m d)) hdoe).2]
    rw [rdYoeDoy_doeOf (y % 400) (doyOf m d) (by omega) hdoy365
      (by intro h
          obtain ⟨hm2', _⟩ := doyOf_eq_365 m d hm1 hm2 hd1 hmLen h
          omega)]
    rw [rdMD_doyOf m d hm1 hm2 hd1 hmLen]
    rw [if_neg (by omega : ¬ m ≤ 2)]
    simp only [PyDate.mk.injEq, and_true, true_and, and_self]
    omega

/-- Day numbers of 20th-21st century dates lie far above both the
Ethiopian and the Hijri epoch day numbers. -/
theorem gregToRd_lb (y m d : Nat) (hy : 1900 ≤ y) :
    584388 ≤ gregToRd y m d := by
  simp only [gregToRd]
  split_ifs with h
  · have : 4 ≤ (y - 1) / 400 := by omega
    have hnn : 0 ≤ doeOf ((y - 1) % 400) (doyOf m d) := Nat.zero_le _
    omega
  · have : 4 ≤ y / 400 := by omega
    omega

/-! ## Claims -/

/-- C1: For every valid Gregorian date `g` in the range 1900-01-01 through
2100-12-31, converting `g` to Ethiopian and back to Gregorian reproduces
`g` exactly, and likewise converting `g` to Hijri and back to Gregorian
reproduces `g` exactly. -/
theorem claim_C1_roundtrip (y m d : Nat) (hy1 : 1900 ≤ y) (hy2 : y ≤ 2100)
    (hm1 : 1 ≤ m) (hm2 : m ≤ 12) (hd1 : 1 ≤ d)
    (hd2 : d ≤ gregMonthLenN y m) :
    eth_to_gregorian (greg_to_ethiopian y m d).1 (greg_to_ethiopian y m d).2.1
        (greg_to_ethiopian y m d).2.2 = ⟨y, m, d⟩ ∧
    hijri_to_gregorian (greg_to_hijri y m d).1 (greg_to_hijri y m d).2.1
        (greg_to_hijri y m d).2.2 = ⟨y, m, d⟩ := by
  have hlb := gregToRd_lb y m d hy1
  constructor
  · simp only [greg_to_ethiopian, eth_to_gregorian]
    rw [ethToRd_rdToEth (gregToRd y m d) (by omega)]
    exact rdToGreg_gregToRd y m d hy1 hy2 hm1 hm2 hd1 hd2
  · simp only [greg_to_hijri, hijri_to_gregorian]
    rw [hijriToRd_rdToHijri (gregToRd y m d) (by omega)]
    exact rdToGreg_gregToRd y m d hy1 hy2 hm1 hm2 hd1 hd2

/-- Witness for C1 at the spec's own conversion example, Gregorian
2024-09-11. -/
theorem claim_C1_roundtrip_witness :
    eth_to_gregorian (greg_to_ethiopian 2024 9 11).1
        (greg_to_ethiopian 2024 9 11).2.1 (greg_to_ethiopian 2024 9 11).2.2 =
      ⟨2024, 9, 11⟩ ∧
    hijri_to_gregorian (greg_to_hijri 2024 9 11).1
        (greg_to_hijri 2024 9 11).2.1 (greg_to_hijri 2024 9 11).2.2 =
      ⟨2024, 9, 11⟩ :=
  claim_C1_roundtrip 2024 9 11 (by decide) (by decide) (by decide) (by decide)
    (by decide) (by decide)

/-- C2: `calculate_age` returns `reference.year - birth.year`, decremented
by 1 exactly when `(reference.month, reference.day)` is lexicographically
less than `(birth.month, birth.day)`; and for birth 2000-03-15 it returns
23 at 2024-03-14, 24 at 2024-03-15 and 24 at 2024-03-16. -/
theorem claim_C2_age_algorithm :
    (∀ birth_date today : PyDate,
      calculate_age birth_date today =
        if today.month < birth_date.month ∨
            (today.month = birth_date.month ∧ today.day < birth_date.day)
        then (today.year : Int) - (birth_date.year : Int) - 1
        else (today.year : Int) - (birth_date.year : Int)) ∧
    calculate_age ⟨2000, 3, 15⟩ ⟨2024, 3, 14⟩ = 23 ∧
    calculate_age ⟨2000, 3, 15⟩ ⟨2024, 3, 15⟩ = 24 ∧
    calculate_age ⟨2000, 3, 15⟩ ⟨2024, 3, 16⟩ = 24 := by
  refine ⟨fun b t => ?_, by decide, by decide, by decide⟩
  simp only [calculate_age, pyPairLt, Bool.or_eq_true, Bool.and_eq_true,
    decide_eq_true_eq, beq_iff_eq]

/-- C3 (evaluating the code at the failing input): for the unknown tag
"lunar", `validate_date` falls through every branch of its `try` body and
returns ok=true with no error, while `validate_birth_date` rejects with
the unsupported-calendar reason. -/
theorem claim_C3_unknown_tag_eval :
    validate_date "lunar" 2020 1 1 = (true, none) ∧
    validate_birth_date "lunar" 2020 1 1 ⟨2024, 1, 1⟩ =
      (false, some "Unsupported calendar type") := by
  constructor
  · rfl
  · rfl

/-- C4: with the clock value passed explicitly, a calendrically legal
birth date is rejected by `validate_birth_date` with the future-date error
if and only if its Gregorian equivalent is strictly after the reference
date. -/
theorem claim_C4_future_check (calendar : String) (y m d : Int)
    (today g : PyDate) (hleg : birthLegal calendar y m d = true)
    (hg : gregEquivalent calendar y m d = some g) :
    validate_birth_date calendar y m d today =
        (false, some "Birth date cannot be in the future") ↔
      pyDateLt today g = true := by
  by_cases h1 : calendar = "greg"
  · subst h1
    have hx : pyDateLegal y m d = true := by simpa [birthLegal] using hleg
    obtain rfl : (⟨y.toNat, m.toNat, d.toNat⟩ : PyDate) = g := by
      simpa [gregEquivalent] using hg
    rcases hlt : pyDateLt today ⟨y.toNat, m.toNat, d.toNat⟩ <;>
      simp [validate_birth_date, hx, hlt]
  · by_cases h2 : calendar = "eth"
    · subst h2
      have hx : ethLegal y m d = true := by simpa [birthLegal, h1] using hleg
      obtain rfl : eth_to_gregorian y.toNat m.toNat d.toNat = g := by
        simpa [gregEquivalent, h1] using hg
      rcases hlt : pyDateLt today (eth_to_gregorian y.toNat m.toNat d.toNat) <;>
        simp [validate_birth_date, hx, hlt]
    · by_cases h3 : calendar = "hijri"
      · subst h3
        have hx : hijriLegal y m d = true := by
          simpa [birthLegal, h1, h2] using hleg
        obtain rfl : hijri_to_gregorian y.toNat m.toNat d.toNat = g := by
          simpa [gregEquivalent, h1, h2] using hg
        rcases hlt :
            pyDateLt today (hijri_to_gregorian y.toNat m.toNat d.toNat) <;>
          simp [validate_birth_date, hx, hlt]
      · exfalso
        simp [birthLegal, h1, h2, h3] at hleg

/-- Witness for C4: a Gregorian birth date after the reference date. -/
theorem claim_C4_future_check_witness :
    validate_birth_date "greg" 2000 3 15 ⟨1999, 1, 1⟩ =
        (false, some "Birth date cannot be in the future") ↔
      pyDateLt ⟨1999, 1, 1⟩ ⟨2000, 3, 15⟩ = true :=
  claim_C4_future_check "greg" 2000 3 15 ⟨1999, 1, 1⟩ ⟨2000, 3, 15⟩
    (by decide) (by decide)

/-- C5: an Ethiopian date and a Hijri date that convert to the same
Gregorian pivot get their weekday names from the same Sunday-first index
`(pivot.weekday + 1) % 7` of their respective name tables, hence name the
same day of the 7-day cycle. -/
theorem claim_C5_weekday_consistency (ey em ed hy hm hd : Nat) (g : PyDate)
    (he : eth_to_gregorian ey em ed = g)
    (hh : hijri_to_gregorian hy hm hd = g) :
    get_ethiopian_weekday ey em ed =
        ETH_WEEKDAYS.getD ((pyDateWeekday g + 1) % 7) "" ∧
    get_hijri_weekday hy hm hd =
        HIJRI_WEEKDAYS.getD ((pyDateWeekday g + 1) % 7) "" := by
  constructor
  · simp only [get_ethiopian_weekday, he]
  · simp only [get_hijri_weekday, hh]

/-- Witness for C5: Ethiopian 2017-01-01 and Hijri 1446-03-07 both pivot
to Gregorian 2024-09-11 (a Wednesday). -/
theorem claim_C5_weekday_consistency_witness :
    get_ethiopian_weekday 2017 1 1 =
        ETH_WEEKDAYS.getD ((pyDateWeekday ⟨2024, 9, 11⟩ + 1) % 7) "" ∧
    get_hijri_weekday 1446 3 7 =
        HIJRI_WEEKDAYS.getD ((pyDateWeekday ⟨2024, 9, 11⟩ + 1) % 7) "" :=
  claim_C5_weekday_consistency 2017 1 1 1446 3 7 ⟨2024, 9, 11⟩ (by decide)
    (by decide)

/-- C6 counterexample: 10000-01-01 is a real proleptic-Gregorian date, yet
`validate_date "greg"` reports it invalid (Python's `datetime.date` only
represents years 1..9999), so legality of the code's Gregorian validator
is not equivalent to real proleptic-Gregorian legality. -/
theorem claim_C6_counterexample :
    prolepticGregLegal 10000 1 1 = true ∧
    (validate_date "greg" 10000 1 1).1 = false := by
  constructor
  · rfl
  · rfl

/-- C6 (amended): `validate_date "greg"` accepts a triple iff it is a real
proleptic-Gregorian date whose year also lies in `datetime.date`'s
supported range 1..9999; in particular 2023-02-29 is invalid and
2024-02-29 is valid. -/
theorem claim_C6_greg_validation :
    (∀ y m d : Int, (validate_date "greg" y m d).1 = true ↔
      (1 ≤ y ∧ y ≤ 9999 ∧ prolepticGregLegal y m d = true)) ∧
    (validate_date "greg" 2023 2 29).1 = false ∧
    validate_date "greg" 2024 2 29 = (true, none) := by
  refine ⟨fun y m d => ?_, by decide, by decide⟩
  have hiff : pyDateLegal y m d = true ↔
      (1 ≤ y ∧ y ≤ 9999 ∧ prolepticGregLegal y m d = true) := by
    simp [pyDateLegal, Bool.and_eq_true, and_assoc]
  rw [← hiff]
  rcases hpd : pyDateLegal y m d <;> simp [validate_date, hpd]

/-- C7: each formatter realizes the fixed-order template
`"<Weekday>, <day> <Month>[ (translit)] <year>[ suffix]"`: Ethiopian
includes the native month name with its transliteration in parentheses,
Hijri appends the literal suffix "AH", Gregorian and Ethiopian append no
suffix. -/
theorem claim_C7_format_template (g : PyDate) (ey em ed hy hm hd : Nat)
    (_hg : pyDateLegal g.year g.month g.day = true)
    (_he : ethLegal ey em ed = true)
    (_hh : hijriLegal hy hm hd = true) :
    format_gregorian_date g =
        composeDateString (ENG_WEEKDAYS.getD (pyDateWeekday g) "") g.day
          (GREG_MONTHS.getD (g.month - 1) "") g.year "" ∧
    format_ethiopian_date ey em ed =
        composeDateString (get_ethiopian_weekday ey em ed) ed
          ((ETH_MONTHS.getD (em - 1) ("", "")).1 ++ " (" ++
            (ETH_MONTHS.getD (em - 1) ("", "")).2 ++ ")") ey "" ∧
    format_hijri_date hy hm hd =
        composeDateString (get_hijri_weekday hy hm hd) hd
          (HIJRI_MONTHS.getD (hm - 1) "") hy " AH" := by
  refine ⟨?_, ?_, ?_⟩
  · simp [format_gregorian_date, composeDateString, String.append_empty]
  · simp [format_ethiopian_date, composeDateString, String.append_assoc,
      String.append_empty]
  · rfl

/-- Witness for C7 at Gregorian 2024-09-11, Ethiopian 2017-01-01 and Hijri
1446-03-07. -/
theorem claim_C7_format_template_witness :
    format_gregorian_date ⟨2024, 9, 11⟩ =
        composeDateString (ENG_WEEKDAYS.getD (pyDateWeekday ⟨2024, 9, 11⟩) "")
          (PyDate.day ⟨2024, 9, 11⟩)
          (GREG_MONTHS.getD (PyDate.month ⟨2024, 9, 11⟩ - 1) "")
          (PyDate.year ⟨2024, 9, 11⟩) "" ∧
    format_ethiopian_date 2017 1 1 =
        composeDateString (get_ethiopian_weekday 2017 1 1) 1
          ((ETH_MONTHS.getD (1 - 1) ("", "")).1 ++ " (" ++
            (ETH_MONTHS.getD (1 - 1) ("", "")).2 ++ ")") 2017 "" ∧
    format_hijri_date 1446 3 7 =
        composeDateString (get_hijri_weekday 1446 3 7) 7
          (HIJRI_MONTHS.getD (3 - 1) "") 1446 " AH" :=
  claim_C7_format_template ⟨2024, 9, 11⟩ 2017 1 1 1446 3 7 (by decide)
    (by decide) (by decide)

/-- C8: for a fixed birth date, `calculate_age` is monotone in the
reference date. -/
theorem claim_C8_age_monotone (birth_date r1 r2 : PyDate)
    (h : pyDateLe r1 r2 = true) :
    calculate_age birth_date r1 ≤ calculate_age birth_date r2 := by
  simp only [calculate_age, pyDateLe, pyPairLt, Bool.or_eq_true,
    Bool.and_eq_true, decide_eq_true_eq, beq_iff_eq] at h ⊢
  split_ifs <;> omega

/-- Witness for C8. -/
theorem claim_C8_age_monotone_witness :
    calculate_age ⟨2000, 3, 15⟩ ⟨2024, 3, 14⟩ ≤
      calculate_age ⟨2000, 3, 15⟩ ⟨2024, 3, 15⟩ :=
  claim_C8_age_monotone ⟨2000, 3, 15⟩ ⟨2024, 3, 14⟩ ⟨2024, 3, 15⟩ (by decide)

/-- C9: when the birth date is not after the reference date,
`calculate_age` is non-negative. -/
theorem claim_C9_age_nonneg (birth_date reference : PyDate)
    (h : pyDateLe birth_date reference = true) :
    0 ≤ calculate_age birth_date reference := by
  simp only [calculate_age, pyDateLe, pyPairLt, Bool.or_eq_true,
    Bool.and_eq_true, decide_eq_true_eq, beq_iff_eq] at h ⊢
  split_ifs <;> omega

/-- Witness for C9. -/
theorem claim_C9_age_nonneg_witness :
    0 ≤ calculate_age ⟨2000, 3, 15⟩ ⟨2024, 3, 15⟩ :=
  claim_C9_age_nonneg ⟨2000, 3, 15⟩ ⟨2024, 3, 15⟩ (by decide)

/-- C10: `parse_birth_date` raises `ValueError` (errors) exactly when
`validate_birth_date` reports invalid, carrying the validator's reason as
the message, and otherwise returns the Gregorian `datetime.date`
equivalent of the input. -/
theorem claim_C10_parse_contract (calendar : String) (y m d : Int)
    (today : PyDate) :
    ((validate_birth_date calendar y m d today).1 = false →
      ∃ e, (validate_birth_date calendar y m d today).2 = some e ∧
        parse_birth_date calendar y m d today = Except.error e) ∧
    ((validate_birth_date calendar y m d today).1 = true →
      parse_birth_date calendar y m d today =
        Except.ok (gregEquivalent calendar y m d)) := by
  constructor
  · intro hfalse
    have hsome : ∃ e,
        (validate_birth_date calendar y m d today).2 = some e := by
      simp only [validate_birth_date] at hfalse ⊢
      split_ifs at hfalse ⊢ <;> simp_all
    obtain ⟨e, he⟩ := hsome
    exact ⟨e, he, by simp [parse_birth_date, hfalse, he]⟩
  · intro htrue
    simp only [parse_birth_date, htrue, gregEquivalent, if_true]
    by_cases h1 : calendar = "greg"
    · simp [h1]
    · by_cases h2 : calendar = "eth"
      · simp [h1, h2]
      · by_cases h3 : calendar = "hijri"
        · simp [h1, h2, h3]
        · simp [h1, h2, h3]

/-- Witness for C10: a valid Gregorian birth date parses to itself. -/
theorem claim_C10_parse_contract_witness :
    parse_birth_date "greg" 2000 3 15 ⟨2024, 3, 15⟩ =
      Except.ok (gregEquivalent "greg" 2000 3 15) :=
  (claim_C10_parse_contract "greg" 2000 3 15 ⟨2024, 3, 15⟩).2 (by decide)
